import Mathlib

/-!
Shallow embedding of `common_sensor_launch/launch/nebula_node_container.launch.py`:
the sensor-topology-to-pipeline configuration resolver.  Python strings become
`String`, floats become `ℚ` (every constant in the launch file is an exact
decimal), the filesystem becomes an abstract predicate `String → Bool`, Python
dicts become insertion-ordered association lists, and exceptions (a failed
tuple unpacking, `assert`) become `Except String`.
-/

namespace NebulaLaunch

/-- Python `s[:n]`: the first `n` characters of `s` (all of `s` when shorter). -/
def pySlice (s : String) (n : Nat) : String :=
  ⟨s.data.take n⟩

/-- Python `s.lower()`, modelled per character (the sensor-model prefixes the
launch file compares against are ASCII). -/
def pyLower (s : String) : String :=
  ⟨s.data.map Char.toLower⟩

/-- Python `os.path.join(...)` for relative components, as used in the launch
file: components joined by `/`. -/
def joinPath (ps : List String) : String :=
  String.intercalate "/" ps

/-- Model classifier `get_lidar_make` (launch file lines 32–37).  The Python function returns a
pair for a recognized model and the bare string `"unrecognized_sensor_model"`
otherwise; the caller unpacks the result into two variables, so the
unrecognized case raises at the call site.  We model the result as
`Except String (String × String)`. -/
def get_lidar_make (sensor_name : String) : Except String (String × String) :=
  if pyLower (pySlice sensor_name 6) = "pandar" then
    .ok ("Hesai", ".csv")
  else if pyLower (pySlice sensor_name 3) ∈ ["hdl", "vlp", "vls"] then
    .ok ("Velodyne", ".yaml")
  else
    .error "unrecognized_sensor_model"

/-- The raw vehicle dimensions read from the global/ros parameters
(`gp` in `get_vehicle_info`). -/
structure VehicleDims where
  front_overhang : ℚ
  rear_overhang : ℚ
  wheel_base : ℚ
  wheel_tread : ℚ
  left_overhang : ℚ
  right_overhang : ℚ
  vehicle_height : ℚ
  deriving Repr, DecidableEq

/-- The dictionary `p` built by `get_vehicle_info` (lines 40–55). -/
structure VehicleInfo where
  vehicle_length : ℚ
  vehicle_width : ℚ
  min_longitudinal_offset : ℚ
  max_longitudinal_offset : ℚ
  min_lateral_offset : ℚ
  max_lateral_offset : ℚ
  min_height_offset : ℚ
  max_height_offset : ℚ
  deriving Repr, DecidableEq

/-- Geometry calculator `get_vehicle_info` (lines 40–55): fixed arithmetic over the raw
dimensions. -/
def get_vehicle_info (gp : VehicleDims) : VehicleInfo where
  vehicle_length := gp.front_overhang + gp.wheel_base + gp.rear_overhang
  vehicle_width := gp.wheel_tread + gp.left_overhang + gp.right_overhang
  min_longitudinal_offset := -gp.rear_overhang
  max_longitudinal_offset := gp.front_overhang + gp.wheel_base
  min_lateral_offset := -(gp.wheel_tread / 2 + gp.right_overhang)
  max_lateral_offset := gp.wheel_tread / 2 + gp.left_overhang
  min_height_offset := 0
  max_height_offset := gp.vehicle_height

/-- The offset fields `get_vehicle_mirror_info` reads from the vehicle mirror
parameter YAML file (lines 58–62); the file content is an input of the
embedding. -/
structure MirrorParams where
  min_longitudinal_offset : ℚ
  max_longitudinal_offset : ℚ
  min_lateral_offset : ℚ
  max_lateral_offset : ℚ
  min_height_offset : ℚ
  max_height_offset : ℚ
  deriving Repr, DecidableEq

/-- A value stored in a node's parameter dictionary: a string, a rational
(Python float), a boolean, or an unresolved `LaunchConfiguration(x)`
substitution. -/
inductive ParamValue where
  | str (s : String)
  | rat (q : ℚ)
  | bool (b : Bool)
  | launchConfig (nm : String)
  deriving Repr, DecidableEq

/-- A Python dict with string keys, as an insertion-ordered association
list (keys are unique by construction). -/
abbrev ParamDict := List (String × ParamValue)

/-- Python `d[k]` lookup (`None` when absent). -/
def dictGet (d : ParamDict) (k : String) : Option ParamValue :=
  match d with
  | [] => none
  | (k', v) :: rest => if k' = k then some v else dictGet rest k

/-- Python `d[k] = v`: replace the binding in place when the key exists,
otherwise append it (insertion order). -/
def dictSet (d : ParamDict) (k : String) (v : ParamValue) : ParamDict :=
  match d with
  | [] => [(k, v)]
  | (k', v') :: rest => if k' = k then (k, v) :: rest else (k', v') :: dictSet rest k v

/-- Helper `create_parameter_dict` (lines 66–70): each argument name mapped to its
`LaunchConfiguration` substitution. -/
def create_parameter_dict (args : List String) : ParamDict :=
  args.map fun x => (x, ParamValue.launchConfig x)

/-- Lines 151–156 and 173–178: store the six crop-box bounds into the
`cropbox_parameters` dict, in source order. -/
def set_cropbox_bounds (d : ParamDict)
    (min_x max_x min_y max_y min_z max_z : ℚ) : ParamDict :=
  dictSet (dictSet (dictSet (dictSet (dictSet (dictSet d
    "min_x" (.rat min_x)) "max_x" (.rat max_x)) "min_y" (.rat min_y))
    "max_y" (.rat max_y)) "min_z" (.rat min_z)) "max_z" (.rat max_z)

/-- A `ComposableNode` description.  `launch_ros` normalizes (copies) the
parameter dicts at construction, so each node holds a snapshot of the dict
at the time `ComposableNode(...)` runs; `parameters` is the list of dicts
passed, `remappings` the list of (from, to) topic pairs. -/
structure ComposableNode where
  package : String
  plugin : String
  name : String
  parameters : List ParamDict
  remappings : List (String × String)
  deriving Repr, DecidableEq

/-- The launch configurations and external file contents `launch_setup`
consumes, plus the filesystem (`os.path.exists`) as a predicate. -/
structure LaunchContext where
  sensor_model : String
  config_file : String
  sensor_correction_file : String
  launch_driver : Bool
  use_pointcloud_container : Bool
  container_name : String
  nebula_decoders_share_dir : String
  nebula_ros_share_dir : String
  fs : String → Bool
  global_params : VehicleDims
  mirror_params : MirrorParams
  sensor_params : ParamDict

/-- The three file paths resolved by lines 79–110. -/
structure FilePaths where
  sensor_params_fp : String
  sensor_calib_fp : String
  sensor_correction_fp : String
  deriving Repr, DecidableEq

/-- Line 83–85: the model-specific default params path substituted when
`config_file` is empty. -/
def default_params_path (ctx : LaunchContext) (sensor_make : String) : String :=
  joinPath [ctx.nebula_ros_share_dir, "config", pyLower sensor_make,
    ctx.sensor_model ++ ".yaml"]

/-- Lines 86–91: the calibration file path (not user-overridable). -/
def calib_path (ctx : LaunchContext) (sensor_make sensor_extension : String) : String :=
  joinPath [ctx.nebula_decoders_share_dir, "calibration", pyLower sensor_make,
    ctx.sensor_model ++ sensor_extension]

/-- Lines 95–100: the default correction path substituted when
`sensor_correction_file` is empty. -/
def default_correction_path (ctx : LaunchContext) (sensor_make : String) : String :=
  joinPath [ctx.nebula_decoders_share_dir, "calibration", pyLower sensor_make,
    ctx.sensor_model ++ ".dat"]

/-- Line 104: the generic base params file. -/
def base_params_path (ctx : LaunchContext) : String :=
  joinPath [ctx.nebula_ros_share_dir, "config", "BaseParams.yaml"]

/-- The params path after both fallbacks (lines 81–85 and 103–104): user
path, else model default, and whichever was chosen replaced by
`BaseParams.yaml` when it does not exist. -/
def final_params_path (ctx : LaunchContext) (sensor_make : String) : String :=
  let p0 := if ctx.config_file = "" then default_params_path ctx sensor_make
            else ctx.config_file
  if ctx.fs p0 then p0 else base_params_path ctx

/-- The correction path after substitution and the existence check (lines
93–102): user path, else model default, and emptied when the chosen path
does not exist. -/
def resolved_correction (ctx : LaunchContext) (sensor_make : String) : String :=
  let corr0 := if ctx.sensor_correction_file = "" then
                 default_correction_path ctx sensor_make
               else ctx.sensor_correction_file
  if ctx.fs corr0 then corr0 else ""

/-- Lines 79–110: resolve the params, calibration and correction paths.
The two `assert` statements become the two `.error` branches, in source
order (params first). -/
def resolve_sensor_files (ctx : LaunchContext)
    (sensor_make sensor_extension : String) : Except String FilePaths :=
  let sensor_calib_fp := calib_path ctx sensor_make sensor_extension
  let sensor_correction_fp := resolved_correction ctx sensor_make
  let sensor_params_fp := final_params_path ctx sensor_make
  if ctx.fs sensor_params_fp then
    if ctx.fs sensor_calib_fp then
      .ok ⟨sensor_params_fp, sensor_calib_fp, sensor_correction_fp⟩
    else
      .error ("Sensor calib file under calibration/ was not found: " ++ sensor_calib_fp)
  else
    .error ("Sensor params yaml file under config/ was not found: " ++ sensor_params_fp)

/-- Where the hardware-interface loader is targeted (lines 264–268): the
dedicated `ComposableNodeContainer` built in this launch file, or the
pre-existing container referenced by name. -/
inductive ContainerTarget where
  | dedicatedContainer
  | namedContainer (nm : String)
  deriving Repr, DecidableEq

/-- The actions returned by `launch_setup` (line 276), with each launch
condition already evaluated: `container_active` is the
`UnlessCondition(use_pointcloud_container)` of the dedicated container,
`loader_active` the `IfCondition(use_pointcloud_container)` of the
pipeline loader, and `driver_loader_active` the
`IfCondition(launch_driver)` of the hardware-interface loader. -/
structure LaunchActions where
  container_name : String
  pipeline_nodes : List ComposableNode
  container_active : Bool
  loader_active : Bool
  driver_component : ComposableNode
  driver_target : ContainerTarget
  driver_loader_active : Bool
  deriving Repr, DecidableEq

/-- Lines 114–276 given the resolved paths: build the five pipeline nodes,
the hardware-interface node, and the container/loader actions.  The
`cropbox_parameters` dict is built once (lines 147–156), snapshotted into
the self-crop node, then mutated in place with the mirror bounds (lines
173–178) and snapshotted into the mirror-crop node — `ComposableNode`
copies its parameters at construction, so the self-crop snapshot keeps the
vehicle-derived bounds. -/
def build_actions (ctx : LaunchContext) (sensor_make : String)
    (paths : FilePaths) : LaunchActions :=
  let driver_ros_wrapper : ComposableNode :=
    { package := "nebula_ros"
      plugin := sensor_make ++ "DriverRosWrapper"
      name := pyLower sensor_make ++ "_driver_ros_wrapper_node"
      parameters := [ctx.sensor_params,
        [("calibration_file", .str paths.sensor_calib_fp),
         ("correction_file", .str paths.sensor_correction_fp),
         ("sensor_model", .str ctx.sensor_model)] ++
        create_parameter_dict ["return_mode", "min_range", "max_range",
          "frame_id", "scan_phase", "cloud_min_angle", "cloud_max_angle",
          "dual_return_distance_threshold"]]
      remappings := [("aw_points", "pointcloud_raw"),
                     ("aw_points_ex", "pointcloud_raw_ex")] }
  let cropbox0 :=
    dictSet (create_parameter_dict ["input_frame", "output_frame"])
      "negative" (.bool true)
  let vehicle_info := get_vehicle_info ctx.global_params
  let cropbox_self :=
    set_cropbox_bounds cropbox0
      vehicle_info.min_longitudinal_offset vehicle_info.max_longitudinal_offset
      vehicle_info.min_lateral_offset vehicle_info.max_lateral_offset
      vehicle_info.min_height_offset vehicle_info.max_height_offset
  let crop_self_node : ComposableNode :=
    { package := "pointcloud_preprocessor"
      plugin := "pointcloud_preprocessor::CropBoxFilterComponent"
      name := "crop_box_filter_self"
      parameters := [cropbox_self]
      remappings := [("input", "pointcloud_raw_ex"),
                     ("output", "self_cropped/pointcloud_ex")] }
  let m := ctx.mirror_params
  let cropbox_mirror :=
    set_cropbox_bounds cropbox_self
      m.min_longitudinal_offset m.max_longitudinal_offset
      m.min_lateral_offset m.max_lateral_offset
      m.min_height_offset m.max_height_offset
  let crop_mirror_node : ComposableNode :=
    { package := "pointcloud_preprocessor"
      plugin := "pointcloud_preprocessor::CropBoxFilterComponent"
      name := "crop_box_filter_mirror"
      parameters := [cropbox_mirror]
      remappings := [("input", "self_cropped/pointcloud_ex"),
                     ("output", "mirror_cropped/pointcloud_ex")] }
  let distortion_corrector : ComposableNode :=
    { package := "pointcloud_preprocessor"
      plugin := "pointcloud_preprocessor::DistortionCorrectorComponent"
      name := "distortion_corrector_node"
      parameters := []
      remappings :=
        [("~/input/twist", "/sensing/vehicle_velocity_converter/twist_with_covariance"),
         ("~/input/imu", "/sensing/imu/imu_data"),
         ("~/input/pointcloud", "mirror_cropped/pointcloud_ex"),
         ("~/output/pointcloud", "rectified/pointcloud_ex")] }
  let ring_outlier_filter : ComposableNode :=
    { package := "pointcloud_preprocessor"
      plugin := "pointcloud_preprocessor::RingOutlierFilterComponent"
      name := "ring_outlier_filter"
      parameters := []
      remappings := [("input", "rectified/pointcloud_ex"),
                     ("output", "outlier_filtered/pointcloud")] }
  let nodes := [driver_ros_wrapper, crop_self_node, crop_mirror_node,
                distortion_corrector, ring_outlier_filter]
  let driver_component : ComposableNode :=
    { package := "nebula_ros"
      plugin := sensor_make ++ "HwInterfaceRosWrapper"
      name := pyLower sensor_make ++ "_hw_interface_ros_wrapper_node"
      parameters :=
        [[("sensor_model", .str ctx.sensor_model),
          ("calibration_file", .str paths.sensor_calib_fp)] ++
         create_parameter_dict ["sensor_ip", "host_ip", "scan_phase",
           "return_mode", "frame_id", "rotation_speed", "data_port",
           "gnss_port", "cloud_min_angle", "cloud_max_angle"]]
      remappings := [] }
  { container_name := ctx.container_name
    pipeline_nodes := nodes
    container_active := !ctx.use_pointcloud_container
    loader_active := ctx.use_pointcloud_container
    driver_component := driver_component
    driver_target :=
      if ctx.use_pointcloud_container then .namedContainer ctx.container_name
      else .dedicatedContainer
    driver_loader_active := ctx.launch_driver }

/-- Top level `launch_setup` (lines 65–276): classify the model (the unrecognized
case raises at the unpacking on line 74, before any path is built or any
filesystem check runs), resolve the files, then build the node actions. -/
def launch_setup (ctx : LaunchContext) : Except String LaunchActions :=
  match get_lidar_make ctx.sensor_model with
  | .error e => .error e
  | .ok (sensor_make, sensor_extension) =>
    match resolve_sensor_files ctx sensor_make sensor_extension with
    | .error e => .error e
    | .ok paths => .ok (build_actions ctx sensor_make paths)

/-- A placeholder node, used only as the out-of-range default of list
indexing in statements. -/
def emptyNode : ComposableNode := ⟨"", "", "", [], []⟩

/-- The `i`-th pipeline node of the returned actions. -/
def node_at (r : LaunchActions) (i : Nat) : ComposableNode :=
  r.pipeline_nodes.getD i emptyNode

/-- The (single) parameter dict of the `i`-th pipeline node. -/
def crop_params_at (r : LaunchActions) (i : Nat) : ParamDict :=
  (node_at r i).parameters.headD []

/-- The `correction_file` entry the driver ros wrapper node (pipeline node 0)
receives in its second parameter dict. -/
def driver_correction_param (r : LaunchActions) : Option ParamValue :=
  match r.pipeline_nodes with
  | n :: _ => dictGet (n.parameters.getD 1 []) "correction_file"
  | [] => none

/-! Concrete fixtures used by the witness theorems. -/

def exampleDims : VehicleDims := ⟨1/2, 1/2, 5/2, 3/2, 1/5, 1/5, 9/5⟩

def exampleMirror : MirrorParams := ⟨1/10, 2/10, -(3/10), 4/10, 0, 6/10⟩

def exampleCtx : LaunchContext where
  sensor_model := "PandarXT"
  config_file := ""
  sensor_correction_file := ""
  launch_driver := true
  use_pointcloud_container := false
  container_name := "nebula_node_container"
  nebula_decoders_share_dir := "/opt/nebula_decoders"
  nebula_ros_share_dir := "/opt/nebula_ros"
  fs := fun _ => true
  global_params := exampleDims
  mirror_params := exampleMirror
  sensor_params := []

def examplePaths : FilePaths :=
  ⟨"/opt/nebula_ros/config/hesai/PandarXT.yaml",
   "/opt/nebula_decoders/calibration/hesai/PandarXT.csv",
   "/opt/nebula_decoders/calibration/hesai/PandarXT.dat"⟩

def exampleActions : LaunchActions := build_actions exampleCtx "Hesai" examplePaths

/-- A filesystem missing the model-specific default params file. -/
def exampleCtxNoDefaultParams : LaunchContext :=
  { exampleCtx with fs := fun s => s != "/opt/nebula_ros/config/hesai/PandarXT.yaml" }

def exampleBasePaths : FilePaths :=
  ⟨"/opt/nebula_ros/config/BaseParams.yaml",
   "/opt/nebula_decoders/calibration/hesai/PandarXT.csv",
   "/opt/nebula_decoders/calibration/hesai/PandarXT.dat"⟩

/-- A filesystem missing the default correction file. -/
def exampleCtxNoCorrection : LaunchContext :=
  { exampleCtx with fs := fun s => s != "/opt/nebula_decoders/calibration/hesai/PandarXT.dat" }

def exampleNoCorrPaths : FilePaths :=
  ⟨"/opt/nebula_ros/config/hesai/PandarXT.yaml",
   "/opt/nebula_decoders/calibration/hesai/PandarXT.csv", ""⟩

/-- A user-supplied correction path that does not exist on disk. -/
def exampleCtxUserCorrection : LaunchContext :=
  { exampleCtx with
      sensor_correction_file := "/custom/correction.dat"
      fs := fun s => s != "/custom/correction.dat" }

def exampleUserCorrActions : LaunchActions :=
  build_actions exampleCtxUserCorrection "Hesai" exampleNoCorrPaths

section ClassifierLemmas

/-- If the first six characters lowercased read `pandar`, the first three
lowercased read `pan`. -/
theorem pyLower_pySlice_three_of_six (s : String)
    (h : pyLower (pySlice s 6) = "pandar") : pyLower (pySlice s 3) = "pan" := by
  have hd : (s.data.take 6).map Char.toLower = "pandar".data := congrArg String.data h
  have key : (s.data.take 3).map Char.toLower = "pan".data := by
    calc (s.data.take 3).map Char.toLower
        = ((s.data.take 6).take 3).map Char.toLower := by
          rw [List.take_take]
          norm_num
      _ = ((s.data.take 6).map Char.toLower).take 3 := List.map_take ..
      _ = "pandar".data.take 3 := by rw [hd]
      _ = "pan".data := by decide
  show (⟨(s.data.take 3).map Char.toLower⟩ : String) = "pan"
  rw [key]

theorem get_lidar_make_hesai (s : String)
    (h : pyLower (pySlice s 6) = "pandar") :
    get_lidar_make s = .ok ("Hesai", ".csv") := by
  simp [get_lidar_make, h]

theorem get_lidar_make_velodyne (s : String)
    (h : pyLower (pySlice s 3) ∈ ["hdl", "vlp", "vls"]) :
    get_lidar_make s = .ok ("Velodyne", ".yaml") := by
  have h6 : pyLower (pySlice s 6) ≠ "pandar" := by
    intro hp
    have := pyLower_pySlice_three_of_six s hp
    rw [this] at h
    simp at h
  simp [get_lidar_make, h6, h]

theorem get_lidar_make_unrec (s : String)
    (h6 : pyLower (pySlice s 6) ≠ "pandar")
    (h3 : pyLower (pySlice s 3) ∉ ["hdl", "vlp", "vls"]) :
    get_lidar_make s = .error "unrecognized_sensor_model" := by
  simp [get_lidar_make, h6, h3]

end ClassifierLemmas

/-- C2: models whose first six characters lowercased equal `pandar` classify
as Hesai with calibration extension `.csv`; models whose first three
characters lowercased are `hdl`, `vlp` or `vls` classify as Velodyne with
extension `.yaml`; every other model is unrecognized with no extension
(the bare error value `"unrecognized_sensor_model"`). -/
theorem get_lidar_make_classification :
    (∀ s : String, pyLower (pySlice s 6) = "pandar" →
        get_lidar_make s = .ok ("Hesai", ".csv")) ∧
    (∀ s : String, pyLower (pySlice s 3) ∈ ["hdl", "vlp", "vls"] →
        get_lidar_make s = .ok ("Velodyne", ".yaml")) ∧
    (∀ s : String, pyLower (pySlice s 6) ≠ "pandar" →
        pyLower (pySlice s 3) ∉ ["hdl", "vlp", "vls"] →
        get_lidar_make s = .error "unrecognized_sensor_model") :=
  ⟨get_lidar_make_hesai, get_lidar_make_velodyne, get_lidar_make_unrec⟩

/-- Witness for C2 at concrete model strings. -/
theorem get_lidar_make_classification_witness :
    get_lidar_make "PandarQT" = .ok ("Hesai", ".csv") ∧
    get_lidar_make "HDL32E" = .ok ("Velodyne", ".yaml") ∧
    get_lidar_make "livox" = .error "unrecognized_sensor_model" :=
  ⟨get_lidar_make_classification.1 "PandarQT" rfl,
   get_lidar_make_classification.2.1 "HDL32E" (by decide),
   get_lidar_make_classification.2.2 "livox" (by decide) (by decide)⟩

/-- C3: a model string matching none of the recognized prefixes makes
`launch_setup` abort with the classification error, for every context —
in particular for every filesystem state, so before any path is resolved
or any existence check is consulted, and no node list is produced. -/
theorem unrecognized_model_aborts :
    ∀ ctx : LaunchContext,
      pyLower (pySlice ctx.sensor_model 6) ≠ "pandar" →
      pyLower (pySlice ctx.sensor_model 3) ∉ ["hdl", "vlp", "vls"] →
      launch_setup ctx = .error "unrecognized_sensor_model" := by
  intro ctx h6 h3
  unfold launch_setup
  rw [get_lidar_make_unrec ctx.sensor_model h6 h3]

/-- Witness for C3: a concrete context with model `livox` aborts. -/
theorem unrecognized_model_aborts_witness :
    launch_setup { exampleCtx with sensor_model := "livox" } =
      .error "unrecognized_sensor_model" :=
  unrecognized_model_aborts { exampleCtx with sensor_model := "livox" }
    (by decide) (by decide)

/-- C4: the geometry calculator computes exactly the eight documented
formulas, and on the concrete dimensions of the spec it returns the
documented bounds (−0.5, 3, −0.95, 0.95, 0, 1.8 as exact rationals). -/
theorem get_vehicle_info_formulas :
    (∀ gp : VehicleDims,
        (get_vehicle_info gp).vehicle_length =
            gp.front_overhang + gp.wheel_base + gp.rear_overhang ∧
        (get_vehicle_info gp).vehicle_width =
            gp.wheel_tread + gp.left_overhang + gp.right_overhang ∧
        (get_vehicle_info gp).min_longitudinal_offset = -gp.rear_overhang ∧
        (get_vehicle_info gp).max_longitudinal_offset =
            gp.front_overhang + gp.wheel_base ∧
        (get_vehicle_info gp).min_lateral_offset =
            -(gp.wheel_tread / 2 + gp.right_overhang) ∧
        (get_vehicle_info gp).max_lateral_offset =
            gp.wheel_tread / 2 + gp.left_overhang ∧
        (get_vehicle_info gp).min_height_offset = 0 ∧
        (get_vehicle_info gp).max_height_offset = gp.vehicle_height) ∧
    get_vehicle_info ⟨1/2, 1/2, 5/2, 3/2, 1/5, 1/5, 9/5⟩ =
      ⟨7/2, 19/10, -(1/2), 3, -(19/20), 19/20, 0, 9/5⟩ := by
  constructor
  · exact fun gp => ⟨rfl, rfl, rfl, rfl, rfl, rfl, rfl, rfl⟩
  · simp only [get_vehicle_info, VehicleInfo.mk.injEq]
    norm_num

section ResolverLemmas

/-- A successful resolution returns exactly the final params path, the
calibration path, and the resolved correction. -/
theorem resolve_ok_eq (ctx : LaunchContext) (make ext : String) (p : FilePaths)
    (h : resolve_sensor_files ctx make ext = .ok p) :
    p = ⟨final_params_path ctx make, calib_path ctx make ext,
         resolved_correction ctx make⟩ := by
  simp only [resolve_sensor_files] at h
  split at h
  · split at h
    · injection h with h2
      exact h2.symm
    · simp at h
  · simp at h

/-- Resolution succeeds exactly when the final params path and the
calibration path exist. -/
theorem resolve_isOk_iff (ctx : LaunchContext) (make ext : String) :
    (resolve_sensor_files ctx make ext).isOk = true ↔
      (ctx.fs (final_params_path ctx make) = true ∧
       ctx.fs (calib_path ctx make ext) = true) := by
  simp only [resolve_sensor_files]
  split
  · split
    · simp_all [Except.isOk, Except.toBool]
    · simp_all [Except.isOk, Except.toBool]
  · simp_all [Except.isOk, Except.toBool]

/-- Unfolding `launch_setup` on a successful run. -/
theorem launch_setup_ok_inv (ctx : LaunchContext) (r : LaunchActions)
    (h : launch_setup ctx = .ok r) :
    ∃ make ext paths,
      get_lidar_make ctx.sensor_model = .ok (make, ext) ∧
      resolve_sensor_files ctx make ext = .ok paths ∧
      r = build_actions ctx make paths := by
  unfold launch_setup at h
  split at h
  · simp at h
  · rename_i mk ex heq
    split at h
    · simp at h
    · rename_i paths hres
      exact ⟨mk, ex, paths, heq, hres, by simpa using h.symm⟩

end ResolverLemmas

/-- C5: for a recognized model with an empty user params path, the resolver
substitutes the model-specific default path, falls back to
`BaseParams.yaml` when that default does not exist on disk, and resolution
succeeds exactly when the final params path and the calibration path
exist. -/
theorem params_fallback_spec :
    ∀ (ctx : LaunchContext) (make ext : String),
      get_lidar_make ctx.sensor_model = .ok (make, ext) →
      ctx.config_file = "" →
      ((∀ p : FilePaths, resolve_sensor_files ctx make ext = .ok p →
          p.sensor_params_fp =
            (if ctx.fs (default_params_path ctx make) then
               default_params_path ctx make
             else base_params_path ctx)) ∧
       ((resolve_sensor_files ctx make ext).isOk = true ↔
          (ctx.fs (final_params_path ctx make) = true ∧
           ctx.fs (calib_path ctx make ext) = true))) := by
  intro ctx make ext _hrec hempty
  refine ⟨?_, resolve_isOk_iff ctx make ext⟩
  intro p hp
  rw [resolve_ok_eq ctx make ext p hp]
  simp [final_params_path, hempty]

/-- Witness for C5: a filesystem lacking the model default falls back to
`BaseParams.yaml` and still resolves. -/
theorem params_fallback_witness :
    resolve_sensor_files exampleCtxNoDefaultParams "Hesai" ".csv" =
      .ok exampleBasePaths ∧
    exampleBasePaths.sensor_params_fp = base_params_path exampleCtxNoDefaultParams ∧
    (resolve_sensor_files exampleCtxNoDefaultParams "Hesai" ".csv").isOk = true := by
  have h := params_fallback_spec exampleCtxNoDefaultParams "Hesai" ".csv" rfl rfl
  refine ⟨rfl, ?_, h.2.mpr ⟨rfl, rfl⟩⟩
  have h1 := h.1 exampleBasePaths rfl
  rw [h1]
  decide

/-- C6: for a recognized model, when the user correction path is empty and
the default correction file does not exist, the resolved correction path
is empty, and success is still decided by the params and calibration
paths alone (the missing correction file never causes failure). -/
theorem correction_default_optional :
    ∀ (ctx : LaunchContext) (make ext : String),
      get_lidar_make ctx.sensor_model = .ok (make, ext) →
      ctx.sensor_correction_file = "" →
      ctx.fs (default_correction_path ctx make) = false →
      ((∀ p : FilePaths, resolve_sensor_files ctx make ext = .ok p →
          p.sensor_correction_fp = "") ∧
       ((resolve_sensor_files ctx make ext).isOk = true ↔
          (ctx.fs (final_params_path ctx make) = true ∧
           ctx.fs (calib_path ctx make ext) = true))) := by
  intro ctx make ext _hrec hempty hmissing
  refine ⟨?_, resolve_isOk_iff ctx make ext⟩
  intro p hp
  rw [resolve_ok_eq ctx make ext p hp]
  simp [resolved_correction, hempty, hmissing]

/-- Witness for C6: with no correction file on disk, resolution still
succeeds and the correction path is empty. -/
theorem correction_default_optional_witness :
    resolve_sensor_files exampleCtxNoCorrection "Hesai" ".csv" =
      .ok exampleNoCorrPaths ∧
    exampleNoCorrPaths.sensor_correction_fp = "" ∧
    (resolve_sensor_files exampleCtxNoCorrection "Hesai" ".csv").isOk = true := by
  have h := correction_default_optional exampleCtxNoCorrection "Hesai" ".csv" rfl rfl rfl
  exact ⟨rfl, h.1 exampleNoCorrPaths rfl, h.2.mpr ⟨rfl, rfl⟩⟩

/-- C10: a non-empty user correction path that does not exist on disk is
silently emptied: resolution's outcome is still decided by the params and
calibration paths alone, and on success the driver node receives
`correction_file = ""`. -/
theorem user_correction_silently_dropped :
    ∀ (ctx : LaunchContext) (make ext : String),
      get_lidar_make ctx.sensor_model = .ok (make, ext) →
      ctx.sensor_correction_file ≠ "" →
      ctx.fs ctx.sensor_correction_file = false →
      ((∀ p : FilePaths, resolve_sensor_files ctx make ext = .ok p →
          p.sensor_correction_fp = "") ∧
       ((resolve_sensor_files ctx make ext).isOk = true ↔
          (ctx.fs (final_params_path ctx make) = true ∧
           ctx.fs (calib_path ctx make ext) = true)) ∧
       (∀ r : LaunchActions, launch_setup ctx = .ok r →
          driver_correction_param r = some (.str ""))) := by
  intro ctx make ext hrec hnonempty hmissing
  have hcorr : resolved_correction ctx make = "" := by
    simp [resolved_correction, hnonempty, hmissing]
  refine ⟨?_, resolve_isOk_iff ctx make ext, ?_⟩
  · intro p hp
    rw [resolve_ok_eq ctx make ext p hp]
    exact hcorr
  · intro r hr
    obtain ⟨make', ext', paths, hm', hres', hbuild⟩ := launch_setup_ok_inv ctx r hr
    have hmk : make' = make ∧ ext' = ext := by
      have := hm'.symm.trans hrec
      simpa using this
    rw [hmk.1] at hres' hbuild
    have hpaths := resolve_ok_eq ctx make ext' paths hres'
    subst hbuild
    rw [hpaths]
    simp [driver_correction_param, build_actions, dictGet, create_parameter_dict, hcorr]

/-- Witness for C10: an explicitly configured but missing correction file
is replaced by the empty string in the driver node's parameters. -/
theorem user_correction_silently_dropped_witness :
    launch_setup exampleCtxUserCorrection = .ok exampleUserCorrActions ∧
    driver_correction_param exampleUserCorrActions = some (.str "") := by
  have h := user_correction_silently_dropped exampleCtxUserCorrection "Hesai" ".csv"
    rfl (by decide) rfl
  exact ⟨rfl, h.2.2 exampleUserCorrActions rfl⟩

set_option maxHeartbeats 2000000

/-- C1: in the emitted actions the self-crop node's bounds are the
vehicle-geometry-derived offsets and the mirror-crop node's bounds are the
offsets loaded from the mirror parameter file; in particular storing the
mirror bounds leaves the self-crop node's bounds vehicle-derived. -/
theorem crop_bounds_spec :
    ∀ (ctx : LaunchContext) (r : LaunchActions), launch_setup ctx = .ok r →
      (dictGet (crop_params_at r 1) "min_x" =
         some (.rat (get_vehicle_info ctx.global_params).min_longitudinal_offset) ∧
       dictGet (crop_params_at r 1) "max_x" =
         some (.rat (get_vehicle_info ctx.global_params).max_longitudinal_offset) ∧
       dictGet (crop_params_at r 1) "min_y" =
         some (.rat (get_vehicle_info ctx.global_params).min_lateral_offset) ∧
       dictGet (crop_params_at r 1) "max_y" =
         some (.rat (get_vehicle_info ctx.global_params).max_lateral_offset) ∧
       dictGet (crop_params_at r 1) "min_z" =
         some (.rat (get_vehicle_info ctx.global_params).min_height_offset) ∧
       dictGet (crop_params_at r 1) "max_z" =
         some (.rat (get_vehicle_info ctx.global_params).max_height_offset)) ∧
      (dictGet (crop_params_at r 2) "min_x" =
         some (.rat ctx.mirror_params.min_longitudinal_offset) ∧
       dictGet (crop_params_at r 2) "max_x" =
         some (.rat ctx.mirror_params.max_longitudinal_offset) ∧
       dictGet (crop_params_at r 2) "min_y" =
         some (.rat ctx.mirror_params.min_lateral_offset) ∧
       dictGet (crop_params_at r 2) "max_y" =
         some (.rat ctx.mirror_params.max_lateral_offset) ∧
       dictGet (crop_params_at r 2) "min_z" =
         some (.rat ctx.mirror_params.min_height_offset) ∧
       dictGet (crop_params_at r 2) "max_z" =
         some (.rat ctx.mirror_params.max_height_offset)) := by
  intro ctx r h
  obtain ⟨mk, ex, paths, _, _, hb⟩ := launch_setup_ok_inv ctx r h
  subst hb
  exact ⟨⟨rfl, rfl, rfl, rfl, rfl, rfl⟩, ⟨rfl, rfl, rfl, rfl, rfl, rfl⟩⟩

/-- Witness for C1 at the concrete example context. -/
theorem crop_bounds_witness :
    (dictGet (crop_params_at exampleActions 1) "min_x" =
       some (.rat (get_vehicle_info exampleDims).min_longitudinal_offset) ∧
     dictGet (crop_params_at exampleActions 1) "max_x" =
       some (.rat (get_vehicle_info exampleDims).max_longitudinal_offset) ∧
     dictGet (crop_params_at exampleActions 1) "min_y" =
       some (.rat (get_vehicle_info exampleDims).min_lateral_offset) ∧
     dictGet (crop_params_at exampleActions 1) "max_y" =
       some (.rat (get_vehicle_info exampleDims).max_lateral_offset) ∧
     dictGet (crop_params_at exampleActions 1) "min_z" =
       some (.rat (get_vehicle_info exampleDims).min_height_offset) ∧
     dictGet (crop_params_at exampleActions 1) "max_z" =
       some (.rat (get_vehicle_info exampleDims).max_height_offset)) ∧
    (dictGet (crop_params_at exampleActions 2) "min_x" =
       some (.rat exampleMirror.min_longitudinal_offset) ∧
     dictGet (crop_params_at exampleActions 2) "max_x" =
       some (.rat exampleMirror.max_longitudinal_offset) ∧
     dictGet (crop_params_at exampleActions 2) "min_y" =
       some (.rat exampleMirror.min_lateral_offset) ∧
     dictGet (crop_params_at exampleActions 2) "max_y" =
       some (.rat exampleMirror.max_lateral_offset) ∧
     dictGet (crop_params_at exampleActions 2) "min_z" =
       some (.rat exampleMirror.min_height_offset) ∧
     dictGet (crop_params_at exampleActions 2) "max_z" =
       some (.rat exampleMirror.max_height_offset)) :=
  crop_bounds_spec exampleCtx exampleActions rfl

/-- C7: a successful run emits exactly the five pipeline nodes, in order,
with the exact topic remappings: each node's input topic is the previous
node's output topic. -/
theorem pipeline_topology_spec :
    ∀ (ctx : LaunchContext) (make ext : String) (r : LaunchActions),
      get_lidar_make ctx.sensor_model = .ok (make, ext) →
      launch_setup ctx = .ok r →
      r.pipeline_nodes.map (fun n => (n.name, n.remappings)) =
        [(pyLower make ++ "_driver_ros_wrapper_node",
          [("aw_points", "pointcloud_raw"), ("aw_points_ex", "pointcloud_raw_ex")]),
         ("crop_box_filter_self",
          [("input", "pointcloud_raw_ex"), ("output", "self_cropped/pointcloud_ex")]),
         ("crop_box_filter_mirror",
          [("input", "self_cropped/pointcloud_ex"),
           ("output", "mirror_cropped/pointcloud_ex")]),
         ("distortion_corrector_node",
          [("~/input/twist", "/sensing/vehicle_velocity_converter/twist_with_covariance"),
           ("~/input/imu", "/sensing/imu/imu_data"),
           ("~/input/pointcloud", "mirror_cropped/pointcloud_ex"),
           ("~/output/pointcloud", "rectified/pointcloud_ex")]),
         ("ring_outlier_filter",
          [("input", "rectified/pointcloud_ex"),
           ("output", "outlier_filtered/pointcloud")])] := by
  intro ctx make ext r hrec h
  obtain ⟨mk, ex, paths, hm, _, hb⟩ := launch_setup_ok_inv ctx r h
  have hmk : mk = make := by
    have := hm.symm.trans hrec
    simp at this
    exact this.1
  subst hb hmk
  rfl

/-- Witness for C7 at the concrete example context. -/
theorem pipeline_topology_witness :
    exampleActions.pipeline_nodes.map (fun n => (n.name, n.remappings)) =
      [("hesai_driver_ros_wrapper_node",
        [("aw_points", "pointcloud_raw"), ("aw_points_ex", "pointcloud_raw_ex")]),
       ("crop_box_filter_self",
        [("input", "pointcloud_raw_ex"), ("output", "self_cropped/pointcloud_ex")]),
       ("crop_box_filter_mirror",
        [("input", "self_cropped/pointcloud_ex"),
         ("output", "mirror_cropped/pointcloud_ex")]),
       ("distortion_corrector_node",
        [("~/input/twist", "/sensing/vehicle_velocity_converter/twist_with_covariance"),
         ("~/input/imu", "/sensing/imu/imu_data"),
         ("~/input/pointcloud", "mirror_cropped/pointcloud_ex"),
         ("~/output/pointcloud", "rectified/pointcloud_ex")]),
       ("ring_outlier_filter",
        [("input", "rectified/pointcloud_ex"),
         ("output", "outlier_filtered/pointcloud")])] :=
  pipeline_topology_spec exampleCtx "Hesai" ".csv" exampleActions rfl rfl

/-- C8: both crop filter nodes carry `negative = true` in the emitted
parameter set, for every successful run. -/
theorem cropbox_negative_spec :
    ∀ (ctx : LaunchContext) (r : LaunchActions), launch_setup ctx = .ok r →
      dictGet (crop_params_at r 1) "negative" = some (.bool true) ∧
      dictGet (crop_params_at r 2) "negative" = some (.bool true) := by
  intro ctx r h
  obtain ⟨mk, ex, paths, _, _, hb⟩ := launch_setup_ok_inv ctx r h
  subst hb
  exact ⟨rfl, rfl⟩

/-- Witness for C8 at the concrete example context. -/
theorem cropbox_negative_witness :
    dictGet (crop_params_at exampleActions 1) "negative" = some (.bool true) ∧
    dictGet (crop_params_at exampleActions 2) "negative" = some (.bool true) :=
  cropbox_negative_spec exampleCtx exampleActions rfl

/-- C9: the hardware-interface loader is active exactly when the
`launch_driver` flag is set; it targets the dedicated container when the
shared-container flag is off and the pre-existing container by name when
it is on; and the hardware-interface node has no topic remappings, so it
is not wired into the pipeline chain. -/
theorem hw_interface_spec :
    ∀ (ctx : LaunchContext) (r : LaunchActions), launch_setup ctx = .ok r →
      r.driver_loader_active = ctx.launch_driver ∧
      r.driver_target = (if ctx.use_pointcloud_container then
          ContainerTarget.namedContainer ctx.container_name
        else ContainerTarget.dedicatedContainer) ∧
      r.driver_component.remappings = [] := by
  intro ctx r h
  obtain ⟨mk, ex, paths, _, _, hb⟩ := launch_setup_ok_inv ctx r h
  subst hb
  exact ⟨rfl, rfl, rfl⟩

/-- Witness for C9 at the concrete example context (`launch_driver = true`,
dedicated container). -/
theorem hw_interface_witness :
    exampleActions.driver_loader_active = true ∧
    exampleActions.driver_target = ContainerTarget.dedicatedContainer ∧
    exampleActions.driver_component.remappings = [] :=
  hw_interface_spec exampleCtx exampleActions rfl

end NebulaLaunch
